import Mathlib

/-!
Shallow embedding of the kanban task-board subsystem of `src/main.py`: the
FastAPI handlers `kanban_list`, `kanban_create`, `kanban_update` and
`kanban_move`, the role check `require_pm_or_admin`, and the websocket
`ConnectionManager`, together with the MongoDB operations they perform on
the `kanbantask` collection.

Modelling conventions: float task positions are exact rationals, datetimes
are naturals (a clock value is passed to each handler), ObjectIds are
naturals (always well formed, so the `oid` helper never raises).  A handler
returns its HTTP outcome together with the resulting store and the list of
change events it broadcast.
-/

namespace Portal

/-- Failure kinds surfaced by the handlers: `forbidden` is HTTP 403,
`notFound` is HTTP 404, `invalidArgument` is HTTP 400, and `internalError`
models an unhandled Python exception (HTTP 500). -/
inductive Err where
  | forbidden
  | notFound
  | invalidArgument
  | internalError
deriving DecidableEq, Repr

def adminRole : String := "admin"

def pmRole : String := "project_manager"

def viewerRole : String := "viewer"

def clientRole : String := "client"

def todoCol : String := "todo"

def inProgressCol : String := "in_progress"

def underReviewCol : String := "under_review"

def completedCol : String := "completed"

def emptyStr : String := ""

/-- One document of the `kanbantask` collection (schema `Kanbantask` in
`src/schemas.py`, plus the `_id` and timestamps the store assigns). -/
structure Task where
  id : Nat
  client_id : String
  title : String
  description : String
  status : String
  due_date : Option Nat
  assignees : List String
  position : ℚ
  created_at : Nat
  updated_at : Nat
deriving DecidableEq, Repr

/-- The `kanbantask` collection, in natural (insertion) order. -/
abbrev Store := List Task

/-- A change event handed to `manager.broadcast` by a mutation handler. -/
inductive Event where
  | kanbanCreate (client_id : String) (task_id : Nat)
  | kanbanUpdate (client_id : String) (task_id : Nat)
  | kanbanMove (client_id : String) (task_id : Nat)
deriving DecidableEq, Repr

instance {ε α : Type} [DecidableEq ε] [DecidableEq α] : DecidableEq (Except ε α) := fun a b =>
  match a, b with
  | Except.ok x, Except.ok y =>
    if h : x = y then isTrue (by rw [h]) else isFalse (by simp [h])
  | Except.error x, Except.error y =>
    if h : x = y then isTrue (by rw [h]) else isFalse (by simp [h])
  | Except.ok _, Except.error _ => isFalse (by simp)
  | Except.error _, Except.ok _ => isFalse (by simp)

/-- Outcome of one handler call: the HTTP response (or error), the
resulting `kanbantask` collection, and the events broadcast. -/
structure HResult (α : Type) where
  resp : Except Err α
  store : Store
  events : List Event
deriving DecidableEq

/-- Embeds `db["kanbantask"].find_one({"_id": i})`: the first stored task with the
given id (`_id` is unique in MongoDB, so first = only). -/
def findTask (st : Store) (i : Nat) : Option Task :=
  st.find? (fun t => t.id = i)

/-- Embeds `update_one({"_id": i}, {"$set": ...})`: rewrite the first task with
the given id, leave everything else untouched.  `matched_count == 0`
corresponds to `findTask st i = none`. -/
def updateFirst (st : Store) (i : Nat) (f : Task → Task) : Store :=
  match st with
  | [] => []
  | t :: rest => if t.id = i then f t :: rest else t :: updateFirst rest i f

/-- Maximum of a list of keys; embeds `.sort("position", -1).limit(1)`
applied to the positions of the matching documents. -/
def listMaxQ : List ℚ → Option ℚ
  | [] => none
  | x :: xs =>
    match listMaxQ xs with
    | none => some x
    | some m => some (max x m)

/-- Largest position among the tasks satisfying the filter. -/
def maxPosWhere (st : Store) (p : Task → Bool) : Option ℚ :=
  listMaxQ ((st.filter p).map Task.position)

/-- The check performed by `require_pm_or_admin`: the `X-User-Role` header
must be admin or project_manager, otherwise HTTP 403 is raised. -/
def require_pm_or_admin (role : String) : Bool :=
  role = adminRole || role = pmRole

/-- ASCII lowercasing of a single character (the case folding performed by
the case-insensitive regex option on the data of this model). -/
def lowerChar (c : Char) : Char :=
  if 65 ≤ c.toNat && c.toNat ≤ 90 then Char.ofNat (c.toNat + 32) else c

/-- The characters of a string, lowercased. -/
def lowerList (s : String) : List Char :=
  s.data.map lowerChar

/-- Case-insensitive substring test; embeds the `$options: "i"` `$regex`
clause of `kanban_list`, reading the pattern as literal text. -/
def containsCI (hay pat : String) : Bool :=
  decide (lowerList pat <:+: lowerList hay)

/-- One optional query-string clause of `kanban_list`: in Python a
parameter that is `None` or the empty string is falsy and adds no clause
to the filter document. -/
def optClause (q : Option String) (f : String → Bool) : Bool :=
  match q with
  | none => true
  | some s => if s = emptyStr then true else f s

/-- The MongoDB filter document built by `kanban_list`: tenant scope, plus
status equality, assignee membership (`$in`), and case-insensitive
substring match on title or description (`$or` of two regexes). -/
def matchesQuery (cid : String) (statusQ searchQ assigneeQ : Option String) (t : Task) : Bool :=
  t.client_id = cid
  && optClause statusQ (fun s => t.status = s)
  && optClause assigneeQ (fun a => t.assignees.contains a)
  && optClause searchQ (fun s => containsCI t.title s || containsCI t.description s)

/-- Lexicographic comparison of char lists, written by structural
recursion so that concrete instances evaluate inside the kernel. -/
def charListLtb : List Char → List Char → Bool
  | _, [] => false
  | [], _ :: _ => true
  | a :: as, b :: bs =>
    if a < b then true else if b < a then false else charListLtb as bs

theorem charListLtb_iff : ∀ as bs : List Char, charListLtb as bs = true ↔ as < bs
  | [], [] => iff_of_false (fun h => Bool.noConfusion h) (fun h => nomatch h)
  | [], _ :: _ => iff_of_true rfl List.Lex.nil
  | _ :: _, [] => iff_of_false (fun h => Bool.noConfusion h) (fun h => nomatch h)
  | a :: as, b :: bs => by
    by_cases hab : a < b
    · refine iff_of_true ?_ (List.Lex.rel hab)
      show (if a < b then true else if b < a then false else charListLtb as bs) = true
      rw [if_pos hab]
    · by_cases hba : b < a
      · refine iff_of_false ?_ ?_
        · show (if a < b then true else if b < a then false else charListLtb as bs) = true → False
          rw [if_neg hab, if_pos hba]
          exact fun h => Bool.noConfusion h
        · intro h
          cases h with
          | rel h => exact hab h
          | cons _ => exact lt_irrefl a hba
      · have heq : a = b := le_antisymm (not_lt.mp hba) (not_lt.mp hab)
        subst heq
        constructor
        · intro h
          have h' : charListLtb as bs = true := by
            have h2 : (if a < a then true else if a < a then false else charListLtb as bs) = true := h
            rwa [if_neg hab, if_neg hab] at h2
          exact List.Lex.cons ((charListLtb_iff as bs).mp h')
        · intro h
          show (if a < a then true else if a < a then false else charListLtb as bs) = true
          rw [if_neg hab, if_neg hab]
          cases h with
          | rel h => exact absurd h hab
          | cons h => exact (charListLtb_iff as bs).mpr h

theorem charListLtb_lt (s t : String) : charListLtb s.data t.data = true ↔ s < t :=
  (charListLtb_iff s.data t.data).trans String.lt_iff_toList_lt.symm

/-- The sort order of `kanban_list`: `[("status", 1), ("position", 1),
("created_at", 1)]`.  MongoDB compares the status strings bytewise
(lexicographically), not by any enumeration rank. -/
def taskLE (a b : Task) : Prop :=
  a.status < b.status ∨
    (a.status = b.status ∧
      (a.position < b.position ∨
        (a.position = b.position ∧ a.created_at ≤ b.created_at)))

/-- Executable form of `taskLE`. -/
def taskLEb (a b : Task) : Bool :=
  charListLtb a.status.data b.status.data ||
    (a.status = b.status &&
      (a.position < b.position ||
        (a.position = b.position && a.created_at ≤ b.created_at)))

theorem taskLEb_iff (a b : Task) : taskLEb a b = true ↔ taskLE a b := by
  unfold taskLEb taskLE
  simp only [Bool.or_eq_true, Bool.and_eq_true, decide_eq_true_eq, charListLtb_lt]

instance : DecidableRel taskLE := fun a b => decidable_of_iff _ (taskLEb_iff a b)

instance : IsTotal Task taskLE :=
  ⟨fun a b => by
    unfold taskLE
    rcases lt_trichotomy a.status b.status with h | h | h
    · exact Or.inl (Or.inl h)
    · rcases lt_trichotomy a.position b.position with hp | hp | hp
      · exact Or.inl (Or.inr ⟨h, Or.inl hp⟩)
      · rcases Nat.le_total a.created_at b.created_at with hc | hc
        · exact Or.inl (Or.inr ⟨h, Or.inr ⟨hp, hc⟩⟩)
        · exact Or.inr (Or.inr ⟨h.symm, Or.inr ⟨hp.symm, hc⟩⟩)
      · exact Or.inr (Or.inr ⟨h.symm, Or.inl hp⟩)
    · exact Or.inr (Or.inl h)⟩

instance : IsTrans Task taskLE :=
  ⟨fun a b c hab hbc => by
    unfold taskLE at hab hbc ⊢
    rcases hab with h1 | ⟨e1, h1⟩
    · rcases hbc with h2 | ⟨e2, h2⟩
      · exact Or.inl (h1.trans h2)
      · exact Or.inl (e2 ▸ h1)
    · rcases hbc with h2 | ⟨e2, h2⟩
      · exact Or.inl (e1 ▸ h2)
      · refine Or.inr ⟨e1.trans e2, ?_⟩
        rcases h1 with p1 | ⟨ep1, c1⟩
        · rcases h2 with p2 | ⟨ep2, c2⟩
          · exact Or.inl (p1.trans p2)
          · exact Or.inl (ep2 ▸ p1)
        · rcases h2 with p2 | ⟨ep2, c2⟩
          · exact Or.inl (ep1 ▸ p2)
          · exact Or.inr ⟨ep1.trans ep2, c1.trans c2⟩⟩

/-- GET `/kanban/tasks` (`kanban_list` in `src/main.py`): filter the
collection by the query document and sort ascending by status string,
position, created_at. -/
def kanban_list (st : Store) (cid : String) (statusQ searchQ assigneeQ : Option String) :
    List Task :=
  List.insertionSort taskLE (st.filter (matchesQuery cid statusQ searchQ assigneeQ))

/-- Body of POST `/kanban/tasks` (`KanbanCreatePayload`). -/
structure KanbanCreatePayload where
  client_id : String
  title : String
  description : Option String := some emptyStr
  due_date : Option Nat := none
  assignees : Option (List String) := some []
deriving DecidableEq, Repr

/-- Body of PATCH `/kanban/tasks/{task_id}` (`KanbanUpdatePayload`); a
`none` field was absent from the request or explicitly null — Python's
`model_dump` + `is not None` filter treats the two identically. -/
structure KanbanUpdatePayload where
  title : Option String := none
  description : Option String := none
  status : Option String := none
  due_date : Option Nat := none
  assignees : Option (List String) := none
  position : Option ℚ := none
deriving DecidableEq, Repr

/-- Body of POST `/kanban/tasks/{task_id}/move` (`KanbanMovePayload`);
`to_status` has already passed pydantic's `Literal` validation, so it is
one of the four column labels. -/
structure KanbanMovePayload where
  to_status : String
  before_id : Option Nat := none
  after_id : Option Nat := none
deriving DecidableEq, Repr

/-- Modelled from the spec: `create_document` is defined in `database.py`,
which is not among the sources; per the spec the Task Store "assigns id and
timestamps, persists, returns the stored record".  The caller passes the
fresh id and the clock value used for both timestamps; the record is
appended to the collection. -/
def create_document (st : Store) (rec : Task) (newId now : Nat) : Store :=
  st ++ [{ rec with id := newId, created_at := now, updated_at := now }]

/-- POST `/kanban/tasks` (`kanban_create`): role check, then next position
in the caller's tenant's `todo` column (max + 1.0, or 1.0 when empty),
then persist and broadcast a `kanban:create` event. -/
def kanban_create (role : String) (p : KanbanCreatePayload) (st : Store) (now newId : Nat) :
    HResult Nat :=
  if require_pm_or_admin role = false then ⟨Except.error Err.forbidden, st, []⟩
  else
    let next_pos : ℚ :=
      match maxPosWhere st (fun t => t.client_id = p.client_id && t.status = todoCol) with
      | none => 1
      | some m => m + 1
    let task : Task :=
      { id := 0, client_id := p.client_id, title := p.title,
        description := p.description.getD emptyStr, status := todoCol,
        due_date := p.due_date, assignees := p.assignees.getD [],
        position := next_pos, created_at := 0, updated_at := 0 }
    ⟨Except.ok newId, create_document st task newId now,
     [Event.kanbanCreate p.client_id newId]⟩

/-- Is the `$set` document empty, i.e. were no non-null fields provided? -/
def KanbanUpdatePayload.isEmpty (p : KanbanUpdatePayload) : Bool :=
  p.title = none && p.description = none && p.status = none &&
  p.due_date = none && p.assignees = none && p.position = none

/-- The `$set` of the provided (non-null) fields plus `updated_at`. -/
def applyPatch (t : Task) (p : KanbanUpdatePayload) (now : Nat) : Task :=
  { t with
    title := p.title.getD t.title,
    description := p.description.getD t.description,
    status := p.status.getD t.status,
    due_date := match p.due_date with | none => t.due_date | some d => some d,
    assignees := p.assignees.getD t.assignees,
    position := p.position.getD t.position,
    updated_at := now }

/-- PATCH `/kanban/tasks/{task_id}` (`kanban_update`): role check; an empty
patch is answered by a plain read (404 when the id is absent) with no write
and no event; otherwise `$set` the provided fields plus `updated_at`,
404 when nothing matched, then re-read and broadcast `kanban:update`. -/
def kanban_update (role : String) (tid : Nat) (p : KanbanUpdatePayload) (st : Store) (now : Nat) :
    HResult Task :=
  if require_pm_or_admin role = false then ⟨Except.error Err.forbidden, st, []⟩
  else if p.isEmpty then
    match findTask st tid with
    | none => ⟨Except.error Err.notFound, st, []⟩
    | some t => ⟨Except.ok t, st, []⟩
  else
    match findTask st tid with
    | none => ⟨Except.error Err.notFound, st, []⟩
    | some t0 =>
      ⟨Except.ok (applyPatch t0 p now), updateFirst st tid (fun x => applyPatch x p now),
       [Event.kanbanUpdate (applyPatch t0 p now).client_id tid]⟩

/-- POST `/kanban/tasks/{task_id}/move` (`kanban_move`).  Faithful to the
source: the append branch queries `{"status": to_col}` with no client_id
clause (unlike `kanban_create`), so its maximum ranges over every tenant's
tasks in that column; a neighbor id that resolves to no document raises
HTTP 400 ("Invalid neighbor ids") when both neighbors were supplied, and an
unhandled `AttributeError` on `None.get` (HTTP 500) when only one was. -/
def kanban_move (role : String) (tid : Nat) (p : KanbanMovePayload) (st : Store) (now : Nat) :
    HResult Task :=
  if require_pm_or_admin role = false then ⟨Except.error Err.forbidden, st, []⟩
  else
    let posR : Except Err ℚ :=
      match p.before_id, p.after_id with
      | some b, some a =>
        match findTask st b, findTask st a with
        | some bt, some aft => Except.ok ((bt.position + aft.position) / 2)
        | _, _ => Except.error Err.invalidArgument
      | some b, none =>
        match findTask st b with
        | some bt => Except.ok (bt.position - 1)
        | none => Except.error Err.internalError
      | none, some a =>
        match findTask st a with
        | some aft => Except.ok (aft.position + 1)
        | none => Except.error Err.internalError
      | none, none =>
        Except.ok (match maxPosWhere st (fun t => t.status = p.to_status) with
                   | none => 1
                   | some m => m + 1)
    match posR with
    | Except.error e => ⟨Except.error e, st, []⟩
    | Except.ok pos =>
      match findTask st tid with
      | none => ⟨Except.error Err.notFound, st, []⟩
      | some t0 =>
        let t1 : Task := { t0 with status := p.to_status, position := pos, updated_at := now }
        ⟨Except.ok t1,
         updateFirst st tid (fun x => { x with status := p.to_status, position := pos, updated_at := now }),
         [Event.kanbanMove t1.client_id tid]⟩

/-- A websocket held by the `ConnectionManager`; `alive = false` models a
closed/broken connection whose `send_json` raises `RuntimeError`. -/
structure Conn where
  id : Nat
  alive : Bool
deriving DecidableEq, Repr

/-- Embeds `ConnectionManager.active`: the mapping client_id -> list of
websockets, as an association list with unique keys (a Python dict). -/
abbrev Registry := List (String × List Conn)

/-- Embeds `self.active.get(cid, [])`. -/
def lookupConns (reg : Registry) (cid : String) : List Conn :=
  match reg.find? (fun e => e.1 = cid) with
  | none => []
  | some e => e.2

/-- Embeds `ConnectionManager.connect` after `accept`:
`self.active.setdefault(client_id, []).append(websocket)`. -/
def ConnectionManager.connect (reg : Registry) (cid : String) (ws : Conn) : Registry :=
  if reg.any (fun e => e.1 = cid) then
    reg.map (fun e => if e.1 = cid then (e.1, e.2 ++ [ws]) else e)
  else
    reg ++ [(cid, [ws])]

/-- Embeds `ConnectionManager.disconnect`: look up the entry (return if absent or
empty), remove the first occurrence of the websocket, and pop the entry
when its list became empty. -/
def ConnectionManager.disconnect (reg : Registry) (cid : String) (ws : Conn) : Registry :=
  match reg.find? (fun e => e.1 = cid) with
  | none => reg
  | some e =>
    if e.2.isEmpty then reg
    else
      let arr := e.2.erase ws
      if arr.isEmpty then reg.filter (fun x => !(x.1 = cid))
      else reg.map (fun x => if x.1 = cid then (x.1, arr) else x)

/-- One delivered message: (websocket id, message body). -/
abbrev Delivery := Nat × String

/-- Embeds `await ws.send_json(message)`: succeeds iff the connection is alive,
otherwise raises `RuntimeError`. -/
def sendJson (ws : Conn) (msg : String) : Except Unit Delivery :=
  if ws.alive then Except.ok (ws.id, msg) else Except.error ()

/-- One iteration of the broadcast loop: attempt the send; on success
record the delivery, on `RuntimeError` do nothing (`# skip dead`); the
registry component is never touched by the loop body. -/
def broadcastStep (msg : String) (acc : List Delivery × Registry) (ws : Conn) :
    List Delivery × Registry :=
  match sendJson ws msg with
  | Except.ok d => (acc.1 ++ [d], acc.2)
  | Except.error _ => acc

/-- Embeds `ConnectionManager.broadcast`: iterate over a snapshot of the tenant's
connection list; a `RuntimeError` from one send is swallowed and iteration
continues with the rest.  Returns the deliveries made and the registry
after the call. -/
def ConnectionManager.broadcast (reg : Registry) (cid : String) (msg : String) :
    List Delivery × Registry :=
  (lookupConns reg cid).foldl (broadcastStep msg) ([], reg)

/-- Spec-side definition, for comparison only (claim C2): the rank of a
column in the spec's fixed enumeration order. -/
def specColumnRank (s : String) : Nat :=
  if s = todoCol then 0
  else if s = inProgressCol then 1
  else if s = underReviewCol then 2
  else if s = completedCol then 3
  else 4

/-- Spec-side order, for comparison only (claim C2): column ascending per
the fixed enumeration order, then ordering key, then created-at. -/
def specTaskLE (a b : Task) : Prop :=
  specColumnRank a.status < specColumnRank b.status ∨
    (specColumnRank a.status = specColumnRank b.status ∧
      (a.position < b.position ∨
        (a.position = b.position ∧ a.created_at ≤ b.created_at)))

instance : DecidableRel specTaskLE := fun a b => by
  unfold specTaskLE; exact inferInstance

/-! Shared helper lemmas. -/

theorem broadcast_foldl (msg : String) (conns : List Conn) (start : List Delivery × Registry) :
    conns.foldl (broadcastStep msg) start =
      (start.1 ++ (conns.filter (fun c => c.alive)).map (fun c => (c.id, msg)), start.2) := by
  induction conns generalizing start with
  | nil => simp
  | cons ws rest ih =>
    by_cases h : ws.alive <;>
      simp [List.foldl_cons, broadcastStep, sendJson, h, ih]

theorem mem_updateFirst_of_ne (st : Store) (i : Nat) (f : Task → Task) (u : Task)
    (hu : u ∈ st) (hne : u.id ≠ i) : u ∈ updateFirst st i f := by
  induction st with
  | nil => cases hu
  | cons t rest ih =>
    by_cases h : t.id = i
    · rcases List.mem_cons.mp hu with rfl | hm
      · exact absurd h hne
      · simp only [updateFirst, if_pos h]
        exact List.mem_cons_of_mem _ hm
    · rcases List.mem_cons.mp hu with rfl | hm
      · simp only [updateFirst, if_neg h]
        exact List.mem_cons_self _ _
      · simp only [updateFirst, if_neg h]
        exact List.mem_cons_of_mem _ (ih hm)

/-! Example data used by witnesses and counterexamples. -/

def tenant1 : String := "t1"

def tenant2 : String := "t2"

def exTitle : String := "Install scaffolding"

def exTitle2 : String := "North wall"

def exMsg : String := "kanban-update"

def exTask : Task :=
  { id := 1, client_id := tenant1, title := exTitle, description := emptyStr,
    status := todoCol, due_date := none, assignees := [], position := 1,
    created_at := 3, updated_at := 5 }

/-! Claim theorems. -/

/-- C4: a mutating call (`kanban_create`, `kanban_update`, `kanban_move`)
whose caller role is viewer or client fails Forbidden, leaves the task
store unchanged, and broadcasts no change event. -/
theorem mutating_call_viewer_or_client_forbidden
    (role : String) (hrole : role = viewerRole ∨ role = clientRole)
    (st : Store) (now newId tid : Nat)
    (cp : KanbanCreatePayload) (up : KanbanUpdatePayload) (mp : KanbanMovePayload) :
    kanban_create role cp st now newId = ⟨Except.error Err.forbidden, st, []⟩ ∧
    kanban_update role tid up st now = ⟨Except.error Err.forbidden, st, []⟩ ∧
    kanban_move role tid mp st now = ⟨Except.error Err.forbidden, st, []⟩ := by
  have h : require_pm_or_admin role = false := by
    rcases hrole with h | h <;> subst h <;> decide
  exact ⟨by simp [kanban_create, h], by simp [kanban_update, h], by simp [kanban_move, h]⟩

/-- Witness for C4: a viewer-role create, update and move on a one-task
store are all rejected with Forbidden and change nothing. -/
theorem mutating_call_viewer_or_client_forbidden_witness :
    kanban_create viewerRole { client_id := tenant1, title := exTitle } [exTask] 7 2 =
      ⟨Except.error Err.forbidden, [exTask], []⟩ ∧
    kanban_update viewerRole 1 { title := some exTitle2 } [exTask] 7 =
      ⟨Except.error Err.forbidden, [exTask], []⟩ ∧
    kanban_move viewerRole 1 { to_status := completedCol } [exTask] 7 =
      ⟨Except.error Err.forbidden, [exTask], []⟩ :=
  mutating_call_viewer_or_client_forbidden viewerRole (Or.inl rfl) [exTask] 7 2 1
    { client_id := tenant1, title := exTitle } { title := some exTitle2 }
    { to_status := completedCol }

/-- C9: updating an existing task with an empty patch (no fields provided)
returns the current record unchanged (its updated-at included), leaves the
store unchanged, and emits no change event. -/
theorem kanban_update_empty_patch_noop
    (role : String) (hrole : require_pm_or_admin role = true)
    (st : Store) (tid : Nat) (p : KanbanUpdatePayload) (hp : p.isEmpty = true)
    (t : Task) (ht : findTask st tid = some t) (now : Nat) :
    kanban_update role tid p st now = ⟨Except.ok t, st, []⟩ := by
  simp [kanban_update, hrole, hp, ht]

/-- Witness for C9: an admin empty patch on the stored task returns it with
updated-at still 5, not the clock value 99. -/
theorem kanban_update_empty_patch_noop_witness :
    kanban_update adminRole 1 {} [exTask] 99 = ⟨Except.ok exTask, [exTask], []⟩ :=
  kanban_update_empty_patch_noop adminRole (by decide) [exTask] 1 {} (by decide)
    exTask (by decide) 99

/-- C10: a broadcast leaves the tenant channel registry unchanged — no
tenant entry is added (a broadcast to a tenant with no subscribers
delivers nothing) and no connection or entry is removed, even when
delivery to some connection fails. -/
theorem broadcast_registry_unchanged (reg : Registry) (cid msg : String) :
    (ConnectionManager.broadcast reg cid msg).2 = reg ∧
    (lookupConns reg cid = [] → (ConnectionManager.broadcast reg cid msg).1 = []) := by
  unfold ConnectionManager.broadcast
  rw [broadcast_foldl]
  exact ⟨rfl, fun h => by simp [h]⟩

/-- Witness for C10: broadcasting to a registry that holds a broken and a
live connection for the tenant leaves the registry exactly as it was. -/
theorem broadcast_registry_unchanged_witness :
    (ConnectionManager.broadcast [(tenant1, [⟨1, false⟩, ⟨2, true⟩])] tenant1 exMsg).2 =
      [(tenant1, [⟨1, false⟩, ⟨2, true⟩])] ∧
    (lookupConns [(tenant1, [⟨1, false⟩, ⟨2, true⟩])] tenant1 = [] →
      (ConnectionManager.broadcast [(tenant1, [⟨1, false⟩, ⟨2, true⟩])] tenant1 exMsg).1 = []) :=
  broadcast_registry_unchanged [(tenant1, [⟨1, false⟩, ⟨2, true⟩])] tenant1 exMsg

/-- C7 counterexample: in a registry holding a broken connection and a live
one for the tenant, a broadcast delivers only to the live connection (the
send to the broken one fails), yet the broken connection is still
subscribed afterwards — it is not unsubscribed as the claim states. -/
theorem broadcast_failure_no_unsubscribe_counterexample :
    (ConnectionManager.broadcast [(tenant1, [⟨1, false⟩, ⟨2, true⟩])] tenant1 exMsg).1 =
      [(2, exMsg)] ∧
    (⟨1, false⟩ : Conn) ∈
      lookupConns (ConnectionManager.broadcast [(tenant1, [⟨1, false⟩, ⟨2, true⟩])] tenant1 exMsg).2
        tenant1 := by
  decide

/-- C7 (amended): a delivery failure on one connection is caught and
skipped: delivery still reaches every remaining live connection in
registry order, the failing connection merely receives nothing (it stays
registered; removal happens only through the disconnect path), and the
broadcast always returns normally — the registry it hands back is the one
it was given. -/
theorem broadcast_skips_failed_connections (reg : Registry) (cid msg : String) :
    ConnectionManager.broadcast reg cid msg =
      (((lookupConns reg cid).filter (fun c => c.alive)).map (fun c => (c.id, msg)), reg) := by
  unfold ConnectionManager.broadcast
  rw [broadcast_foldl]
  simp

/-- C6: a move whose `before_id` and `after_id` both resolve, to tasks with
ordering keys k1 < k2, assigns the midpoint (k1 + k2) / 2 to the moved
task, and that key lies strictly between k1 and k2. -/
theorem kanban_move_midpoint
    (role : String) (hrole : require_pm_or_admin role = true)
    (st : Store) (tid : Nat) (p : KanbanMovePayload) (now : Nat)
    (b a : Nat) (hb : p.before_id = some b) (ha : p.after_id = some a)
    (bt aft t0 : Task) (hfb : findTask st b = some bt) (hfa : findTask st a = some aft)
    (ht : findTask st tid = some t0)
    (hlt : bt.position < aft.position) :
    (kanban_move role tid p st now).resp =
      Except.ok
        { t0 with
            status := p.to_status,
            position := (bt.position + aft.position) / 2,
            updated_at := now } ∧
    bt.position < (bt.position + aft.position) / 2 ∧
    (bt.position + aft.position) / 2 < aft.position := by
  refine ⟨?_, by linarith, by linarith⟩
  simp [kanban_move, hrole, hb, ha, hfb, hfa, ht]

/-- Witness for C6: moving task 1 between neighbors with keys 2 and 5
assigns 7/2, strictly between the two. -/
theorem kanban_move_midpoint_witness :
    (kanban_move adminRole 1
        { to_status := todoCol, before_id := some 2, after_id := some 3 }
        [exTask, { exTask with id := 2, position := 2 }, { exTask with id := 3, position := 5 }]
        9).resp =
      Except.ok
        { exTask with
            status := todoCol,
            position := ((2 : ℚ) + 5) / 2,
            updated_at := 9 } ∧
    (2 : ℚ) < ((2 : ℚ) + 5) / 2 ∧ ((2 : ℚ) + 5) / 2 < 5 :=
  kanban_move_midpoint adminRole (by decide)
    [exTask, { exTask with id := 2, position := 2 }, { exTask with id := 3, position := 5 }]
    1 { to_status := todoCol, before_id := some 2, after_id := some 3 } 9
    2 3 rfl rfl
    { exTask with id := 2, position := 2 } { exTask with id := 3, position := 5 } exTask
    (by decide) (by decide) (by decide) (by decide)

/-- C3 counterexample: with both neighbor ids supplied and `before_id`
unresolved, the move fails with InvalidArgument (HTTP 400, "Invalid
neighbor ids"), which is not NotFound. -/
theorem kanban_move_unresolved_neighbor_counterexample :
    (kanban_move adminRole 1
        { to_status := todoCol, before_id := some 99, after_id := some 1 } [exTask] 5).resp =
      Except.error Err.invalidArgument ∧
    Err.invalidArgument ≠ Err.notFound := by
  decide

/-- C3 (amended): a supplied neighbor id that does not resolve makes the
move fail, but never with NotFound: when both neighbors were supplied the
handler raises HTTP 400 (InvalidArgument); when exactly one was supplied
it crashes dereferencing None (an unhandled internal error).  In either
case the store is untouched and no event is broadcast. -/
theorem kanban_move_unresolved_neighbor
    (role : String) (hrole : require_pm_or_admin role = true)
    (st : Store) (tid : Nat) (p : KanbanMovePayload) (now : Nat)
    (hbad : (∃ b, p.before_id = some b ∧ findTask st b = none) ∨
            (∃ a, p.after_id = some a ∧ findTask st a = none)) :
    kanban_move role tid p st now =
      ⟨Except.error (if p.before_id.isSome && p.after_id.isSome then Err.invalidArgument
                     else Err.internalError), st, []⟩ := by
  obtain ⟨ts, ob, oa⟩ := p
  cases ob with
  | none =>
    cases oa with
    | none =>
      rcases hbad with ⟨b, hb, _⟩ | ⟨a, ha, _⟩ <;> simp_all
    | some a =>
      have hfa : findTask st a = none := by
        rcases hbad with ⟨b, hb, _⟩ | ⟨a2, ha2, hf⟩
        · simp_all
        · obtain rfl : a = a2 := by simpa using ha2
          exact hf
      simp [kanban_move, hrole, hfa]
  | some b =>
    cases oa with
    | none =>
      have hfb : findTask st b = none := by
        rcases hbad with ⟨b2, hb2, hf⟩ | ⟨a, ha, _⟩
        · obtain rfl : b = b2 := by simpa using hb2
          exact hf
        · simp_all
      simp [kanban_move, hrole, hfb]
    | some a =>
      rcases hbad with ⟨b2, hb2, hf⟩ | ⟨a2, ha2, hf⟩
      · obtain rfl : b = b2 := by simpa using hb2
        cases hy : findTask st a <;> simp [kanban_move, hrole, hf, hy]
      · obtain rfl : a = a2 := by simpa using ha2
        cases hy : findTask st b <;> simp [kanban_move, hrole, hf, hy]

/-- Witness for C3 (amended): one supplied, unresolved `after_id` makes the
move crash with an internal error rather than NotFound. -/
theorem kanban_move_unresolved_neighbor_witness :
    kanban_move adminRole 1 { to_status := todoCol, after_id := some 42 } [exTask] 5 =
      ⟨Except.error (if (none : Option Nat).isSome && (some 42).isSome then Err.invalidArgument
                     else Err.internalError), [exTask], []⟩ :=
  kanban_move_unresolved_neighbor adminRole (by decide) [exTask] 1
    { to_status := todoCol, after_id := some 42 } 5 (Or.inr ⟨42, rfl, by decide⟩)

/-- C1 (code bug): the append branch of `kanban_move` computes its maximum
over every tenant's tasks in the target column, not the moving task's
tenant's.  Here tenant t1 has no `in_progress` task at all, yet moving its
task to `in_progress` with no neighbors assigns key 6.0 (tenant t2 holds
an `in_progress` task with key 5.0) instead of the claimed 1.0. -/
theorem kanban_move_append_ignores_tenant :
    ((kanban_move adminRole 2 { to_status := inProgressCol }
        [{ exTask with id := 1, client_id := tenant2, status := inProgressCol, position := 5 },
         { exTask with id := 2, client_id := tenant1 }]
        10).resp.toOption.map Task.position = some 6) ∧
    ([{ exTask with id := 1, client_id := tenant2, status := inProgressCol, position := 5 },
      { exTask with id := 2, client_id := tenant1 }].filter
        (fun t => t.client_id = tenant1 && t.status = inProgressCol) = []) ∧
    (6 : ℚ) ≠ 1 := by
  refine ⟨?_, by decide, by norm_num⟩
  simp [kanban_move, require_pm_or_admin, adminRole, pmRole, maxPosWhere, listMaxQ, findTask,
    updateFirst, exTask, tenant1, tenant2, inProgressCol, todoCol, Except.toOption]
  norm_num

/-- C8 counterexample: an update call that provides no fields leaves the
task's updated-at at its old value 5 instead of setting it to the call
time 99 — so "the updated-at timestamp is set" fails for the empty
patch. -/
theorem kanban_update_empty_patch_updated_at_counterexample :
    ((kanban_update adminRole 1 {} [exTask] 99).resp.toOption.map Task.updated_at = some 5) ∧
    (5 : Nat) ≠ 99 := by
  decide

/-- C8 (amended): an update call on an existing task that provides at
least one non-null field overwrites exactly the provided fields, sets
updated-at to the call time, preserves every other field (id, tenant,
created-at, and each field not provided — a field sent as null counts as
not provided), writes only that one task back, returns the updated
record, and fails NotFound when the id is absent; an update providing no
fields is instead a no-op read. -/
theorem kanban_update_merges_provided_fields
    (role : String) (hrole : require_pm_or_admin role = true)
    (st : Store) (tid : Nat) (p : KanbanUpdatePayload) (now : Nat)
    (hp : p.isEmpty = false) :
    (∀ t0, findTask st tid = some t0 →
      kanban_update role tid p st now =
        ⟨Except.ok (applyPatch t0 p now), updateFirst st tid (fun x => applyPatch x p now),
         [Event.kanbanUpdate (applyPatch t0 p now).client_id tid]⟩ ∧
      (applyPatch t0 p now).updated_at = now ∧
      (applyPatch t0 p now).id = t0.id ∧
      (applyPatch t0 p now).client_id = t0.client_id ∧
      (applyPatch t0 p now).created_at = t0.created_at ∧
      (p.title = none → (applyPatch t0 p now).title = t0.title) ∧
      (∀ v, p.title = some v → (applyPatch t0 p now).title = v) ∧
      (p.description = none → (applyPatch t0 p now).description = t0.description) ∧
      (∀ v, p.description = some v → (applyPatch t0 p now).description = v) ∧
      (p.status = none → (applyPatch t0 p now).status = t0.status) ∧
      (∀ v, p.status = some v → (applyPatch t0 p now).status = v) ∧
      (p.due_date = none → (applyPatch t0 p now).due_date = t0.due_date) ∧
      (∀ v, p.due_date = some v → (applyPatch t0 p now).due_date = some v) ∧
      (p.assignees = none → (applyPatch t0 p now).assignees = t0.assignees) ∧
      (∀ v, p.assignees = some v → (applyPatch t0 p now).assignees = v) ∧
      (p.position = none → (applyPatch t0 p now).position = t0.position) ∧
      (∀ v, p.position = some v → (applyPatch t0 p now).position = v) ∧
      (∀ u, u ∈ st → u.id ≠ tid → u ∈ (kanban_update role tid p st now).store)) ∧
    (findTask st tid = none →
      kanban_update role tid p st now = ⟨Except.error Err.notFound, st, []⟩) := by
  constructor
  · intro t0 ht
    have hcall : kanban_update role tid p st now =
        ⟨Except.ok (applyPatch t0 p now), updateFirst st tid (fun x => applyPatch x p now),
         [Event.kanbanUpdate (applyPatch t0 p now).client_id tid]⟩ := by
      simp [kanban_update, hrole, hp, ht]
    refine ⟨hcall, rfl, rfl, rfl, rfl,
      ?_, ?_, ?_, ?_, ?_, ?_, ?_, ?_, ?_, ?_, ?_, ?_, ?_⟩
    · intro h; simp [applyPatch, h]
    · intro v h; simp [applyPatch, h]
    · intro h; simp [applyPatch, h]
    · intro v h; simp [applyPatch, h]
    · intro h; simp [applyPatch, h]
    · intro v h; simp [applyPatch, h]
    · intro h; simp [applyPatch, h]
    · intro v h; simp [applyPatch, h]
    · intro h; simp [applyPatch, h]
    · intro v h; simp [applyPatch, h]
    · intro h; simp [applyPatch, h]
    · intro v h; simp [applyPatch, h]
    · intro u hu hne
      rw [hcall]
      exact mem_updateFirst_of_ne st tid _ u hu hne
  · intro ht
    simp [kanban_update, hrole, hp, ht]

/-- Witness for C8 (amended): patching only the title of the stored task
rewrites the title, stamps updated-at 9, and keeps everything else. -/
theorem kanban_update_merges_provided_fields_witness :
    kanban_update adminRole 1 { title := some exTitle2 } [exTask] 9 =
      ⟨Except.ok (applyPatch exTask { title := some exTitle2 } 9),
       updateFirst [exTask] 1 (fun x => applyPatch x { title := some exTitle2 } 9),
       [Event.kanbanUpdate (applyPatch exTask { title := some exTitle2 } 9).client_id 1]⟩ :=
  ((kanban_update_merges_provided_fields adminRole (by decide) [exTask] 1
      { title := some exTitle2 } 9 (by decide)).1 exTask (by decide)).1

theorem optClause_iff (q : Option String) (f : String → Bool) :
    optClause q f = true ↔ ∀ s, q = some s → s ≠ emptyStr → f s = true := by
  cases q with
  | none => simp [optClause]
  | some s => by_cases h : s = emptyStr <;> simp [optClause, h]

theorem matchesQuery_iff (cid : String) (statusQ searchQ assigneeQ : Option String) (t : Task) :
    matchesQuery cid statusQ searchQ assigneeQ t = true ↔
      (t.client_id = cid ∧
       (∀ s, statusQ = some s → s ≠ emptyStr → t.status = s) ∧
       (∀ a, assigneeQ = some a → a ≠ emptyStr → a ∈ t.assignees) ∧
       (∀ s, searchQ = some s → s ≠ emptyStr →
         (containsCI t.title s = true ∨ containsCI t.description s = true))) := by
  simp only [matchesQuery, Bool.and_eq_true, optClause_iff, decide_eq_true_eq,
    Bool.or_eq_true, List.elem_iff, and_assoc]

/-- C2 counterexample: with one `todo` and one `completed` task in the
tenant, `kanban_list` returns the `completed` task first — MongoDB sorts
the status strings lexicographically, so the result is not ordered by the
spec's fixed enumeration order, which puts `todo` before `completed`. -/
theorem kanban_list_not_enum_order_counterexample :
    ((kanban_list [exTask, { exTask with id := 2, status := completedCol, created_at := 4 }]
        tenant1 none none none).map Task.status = [completedCol, todoCol]) ∧
    ¬ List.Sorted specTaskLE
        (kanban_list [exTask, { exTask with id := 2, status := completedCol, created_at := 4 }]
          tenant1 none none none) := by
  decide

/-- C2 (amended): for every tenant and filter combination, `kanban_list`
returns the tasks sorted ascending by status string (lexicographic byte
order — `completed`, `in_progress`, `todo`, `under_review`), then by
ordering key, then by created-at; a task is included iff it belongs to the
tenant and matches the conjunction of the supplied filters — column
equality, assignee membership, and case-insensitive substring match on
title or description (a filter supplied as null or as the empty string
constrains nothing). -/
theorem kanban_list_order_and_membership
    (st : Store) (cid : String) (statusQ searchQ assigneeQ : Option String) :
    List.Sorted taskLE (kanban_list st cid statusQ searchQ assigneeQ) ∧
    (∀ t, t ∈ kanban_list st cid statusQ searchQ assigneeQ ↔
      (t ∈ st ∧ t.client_id = cid ∧
       (∀ s, statusQ = some s → s ≠ emptyStr → t.status = s) ∧
       (∀ a, assigneeQ = some a → a ≠ emptyStr → a ∈ t.assignees) ∧
       (∀ s, searchQ = some s → s ≠ emptyStr →
         (containsCI t.title s = true ∨ containsCI t.description s = true)))) := by
  constructor
  · exact List.sorted_insertionSort taskLE _
  · intro t
    rw [kanban_list, List.mem_insertionSort, List.mem_filter, matchesQuery_iff]

/-! Support for C5: a sequence of creates into an empty tenant column. -/

/-- The task the `i`-th create of `createSeq` stores: fresh id `id0 + i`,
both timestamps `t0 + i`, position `i + 1`. -/
def nthCreated (cid title : String) (t0 id0 i : Nat) : Task :=
  { id := id0 + i, client_id := cid, title := title, description := emptyStr,
    status := todoCol, due_date := none, assignees := [], position := (i : ℚ) + 1,
    created_at := t0 + i, updated_at := t0 + i }

/-- Runs `n` successive admin creates for tenant `cid`, fresh ids and the clock
advancing by one between calls. -/
def createSeq (cid title : String) : Nat → Store → Nat → Nat → Store
  | 0, st, _, _ => st
  | n + 1, st, t0, id0 =>
    (kanban_create adminRole { client_id := cid, title := title }
      (createSeq cid title n st t0 id0) (t0 + n) (id0 + n)).store

theorem listMaxQ_append (xs : List ℚ) (y : ℚ) :
    listMaxQ (xs ++ [y]) =
      some (match listMaxQ xs with | none => y | some m => max m y) := by
  induction xs with
  | nil => rfl
  | cons x xs ih =>
    cases h : listMaxQ xs with
    | none => simp [listMaxQ, ih, h]
    | some m => simp [listMaxQ, ih, h, max_assoc]

theorem listMaxQ_range_map (n : Nat) :
    listMaxQ ((List.range n).map (fun i : Nat => (i : ℚ) + 1)) =
      if n = 0 then none else some ((n : ℚ)) := by
  induction n with
  | zero => rfl
  | succ k ih =>
    rw [List.range_succ, List.map_append, List.map_singleton, listMaxQ_append, ih]
    by_cases hk : k = 0
    · subst hk; norm_num
    · rw [if_neg hk, if_neg (Nat.succ_ne_zero k)]
      have hle : (k : ℚ) ≤ (k : ℚ) + 1 := by linarith
      show some (max ((k : ℚ)) ((k : ℚ) + 1)) = some (((k + 1 : Nat) : ℚ))
      rw [max_eq_right hle]
      push_cast
      ring_nf

/-- The store `kanban_create` leaves behind for an authorized caller. -/
theorem kanban_create_store (role : String) (hrole : require_pm_or_admin role = true)
    (p : KanbanCreatePayload) (st : Store) (now newId : Nat) :
    (kanban_create role p st now newId).store =
      st ++ [{ id := newId, client_id := p.client_id, title := p.title,
               description := p.description.getD emptyStr, status := todoCol,
               due_date := p.due_date, assignees := p.assignees.getD [],
               position :=
                 match maxPosWhere st
                     (fun t => t.client_id = p.client_id && t.status = todoCol) with
                 | none => 1
                 | some m => m + 1,
               created_at := now, updated_at := now }] := by
  simp [kanban_create, hrole, create_document]

theorem createSeq_filter (cid title : String) (st : Store)
    (h0 : st.filter (fun t => t.client_id = cid && t.status = todoCol) = []) :
    ∀ n t0 id0,
      (createSeq cid title n st t0 id0).filter
          (fun t => t.client_id = cid && t.status = todoCol) =
        (List.range n).map (nthCreated cid title t0 id0) := by
  intro n
  induction n with
  | zero => intro t0 id0; simpa [createSeq] using h0
  | succ k ih =>
    intro t0 id0
    have hprev := ih t0 id0
    have hmax : maxPosWhere (createSeq cid title k st t0 id0)
        (fun t => t.client_id = cid && t.status = todoCol) =
        if k = 0 then none else some ((k : ℚ)) := by
      rw [maxPosWhere, hprev, List.map_map]
      have hcomp : (Task.position ∘ nthCreated cid title t0 id0) =
          fun i : Nat => (i : ℚ) + 1 := by
        funext i; rfl
      rw [hcomp, listMaxQ_range_map]
    rw [createSeq, kanban_create_store adminRole (by decide), hmax,
      List.filter_append, hprev, List.range_succ, List.map_append]
    congr 1
    by_cases hk : k = 0
    · subst hk
      simp [nthCreated, todoCol]
    · simp [hk, nthCreated, todoCol]

theorem matchesQuery_todo (cid : String) (t : Task) :
    matchesQuery cid (some todoCol) none none t = (t.client_id = cid && t.status = todoCol) := by
  simp [matchesQuery, optClause, todoCol, emptyStr]

theorem nthCreated_taskLE (cid title : String) (t0 id0 : Nat) {i j : Nat} (hij : i < j) :
    taskLE (nthCreated cid title t0 id0 i) (nthCreated cid title t0 id0 j) := by
  refine Or.inr ⟨rfl, Or.inl ?_⟩
  show (i : ℚ) + 1 < (j : ℚ) + 1
  have : (i : ℚ) < (j : ℚ) := by exact_mod_cast hij
  linarith

theorem kanban_list_createSeq (cid title : String) (st : Store)
    (h0 : st.filter (fun t => t.client_id = cid && t.status = todoCol) = [])
    (n t0 id0 : Nat) :
    kanban_list (createSeq cid title n st t0 id0) cid (some todoCol) none none =
      (List.range n).map (nthCreated cid title t0 id0) := by
  rw [kanban_list]
  have hfe : (createSeq cid title n st t0 id0).filter
        (matchesQuery cid (some todoCol) none none) =
      (createSeq cid title n st t0 id0).filter
        (fun t => t.client_id = cid && t.status = todoCol) :=
    List.filter_congr (fun t _ => matchesQuery_todo cid t)
  rw [hfe, createSeq_filter cid title st h0 n t0 id0]
  apply List.Sorted.insertionSort_eq
  exact (List.pairwise_lt_range n).map _ (fun i j hij => nthCreated_taskLE cid title t0 id0 hij)

/-- C5: `kanban_create` always places the new task in `todo` at the end of
the caller tenant's column — ordering key 1.0 plus the tenant's `todo`
maximum, or 1.0 when that column is empty — and appending N tasks to an
empty tenant column yields strictly increasing keys 1.0, 2.0, … with the
listed order equal to creation order. -/
theorem kanban_create_appends_to_todo
    (role : String) (hrole : require_pm_or_admin role = true)
    (p : KanbanCreatePayload) (st : Store) (now newId : Nat) :
    (∃ tsk : Task, (kanban_create role p st now newId).store = st ++ [tsk] ∧
       tsk.status = todoCol ∧ tsk.client_id = p.client_id ∧ tsk.id = newId ∧
       (st.filter (fun t => t.client_id = p.client_id && t.status = todoCol) = [] →
          tsk.position = 1) ∧
       (∀ m, maxPosWhere st (fun t => t.client_id = p.client_id && t.status = todoCol) =
            some m → tsk.position = m + 1)) ∧
    (∀ cid title n st2 t0 id0,
       st2.filter (fun t => t.client_id = cid && t.status = todoCol) = [] →
       kanban_list (createSeq cid title n st2 t0 id0) cid (some todoCol) none none =
           (List.range n).map (nthCreated cid title t0 id0) ∧
       List.Pairwise (fun x y => x.position < y.position)
           (kanban_list (createSeq cid title n st2 t0 id0) cid (some todoCol) none none) ∧
       (kanban_list (createSeq cid title n st2 t0 id0) cid (some todoCol) none none).map
           Task.position = (List.range n).map (fun i : Nat => (i : ℚ) + 1)) := by
  constructor
  · refine ⟨_, kanban_create_store role hrole p st now newId, rfl, rfl, rfl, ?_, ?_⟩
    · intro hempty
      have h1 : maxPosWhere st (fun t => t.client_id = p.client_id && t.status = todoCol) =
          none := by
        rw [maxPosWhere, hempty]; rfl
      simp only [h1]
    · intro m hm
      simp only [hm]
  · intro cid title n st2 t0 id0 h0
    have hlist := kanban_list_createSeq cid title st2 h0 n t0 id0
    refine ⟨hlist, ?_, ?_⟩
    · rw [hlist]
      refine (List.pairwise_lt_range n).map _ (fun i j hij => ?_)
      show (nthCreated cid title t0 id0 i).position < (nthCreated cid title t0 id0 j).position
      show (i : ℚ) + 1 < (j : ℚ) + 1
      have : (i : ℚ) < (j : ℚ) := by exact_mod_cast hij
      linarith
    · rw [hlist, List.map_map]
      rfl

/-- Witness for C5: a create into an empty store assigns position 1.0, and
two successive creates into an empty store list as keys 1.0, 2.0 in
creation order. -/
theorem kanban_create_appends_to_todo_witness :
    (∃ tsk : Task, (kanban_create adminRole { client_id := tenant1, title := exTitle } [] 0 1).store =
        [] ++ [tsk] ∧
       tsk.status = todoCol ∧ tsk.client_id = tenant1 ∧ tsk.id = 1 ∧
       (List.filter (fun t : Task => t.client_id = tenant1 && t.status = todoCol)
            ([] : Store) = [] →
          tsk.position = 1) ∧
       (∀ m, maxPosWhere [] (fun t => t.client_id = tenant1 && t.status = todoCol) = some m →
          tsk.position = m + 1)) ∧
    (∀ cid title n st2 t0 id0,
       st2.filter (fun t => t.client_id = cid && t.status = todoCol) = [] →
       kanban_list (createSeq cid title n st2 t0 id0) cid (some todoCol) none none =
           (List.range n).map (nthCreated cid title t0 id0) ∧
       List.Pairwise (fun x y => x.position < y.position)
           (kanban_list (createSeq cid title n st2 t0 id0) cid (some todoCol) none none) ∧
       (kanban_list (createSeq cid title n st2 t0 id0) cid (some todoCol) none none).map
           Task.position = (List.range n).map (fun i : Nat => (i : ℚ) + 1)) :=
  kanban_create_appends_to_todo adminRole (by decide)
    { client_id := tenant1, title := exTitle } [] 0 1

end Portal
